import Mathlib

/-!
Shallow embedding of `src/foundations/src/telemetry/tracing/init.rs`.

The file under verification is the tracing-harness initialization lifecycle:
the `HARNESS` once-cell, the lazily created `NOOP_HARNESS` fallback,
`TracingHarness::{get, tracer, get_active_traces}`, `create_tracer_and_span_rx`
and `init`.  Collaborators that live outside `src/` (the tracer internals, the
scope stack, the live-reference set, the sampler constructor, the backend
reporter starters and the trace-event serializer) are modelled from the spec;
their fallible entry points are passed in as explicit function parameters so
every theorem quantifies over all of their possible behaviours.

Process-global mutable state (`HARNESS: OnceCell<TracingHarness>`) is embedded
as an explicit `ProcState` record threaded through `init`; `SystemTime::now()`
is embedded as an explicit `now : Nat` argument.
-/

/-- Structured bootstrap error (`BootstrapResult`'s error type), surfaced by
fallible initialization steps. -/
structure BootstrapError where
  msg : String

/-- Service identity handed to the backend reporter starter. -/
structure ServiceInfo where
  name : String

/-- Modelled from the spec: the `Active{probability, rate, burst}` sampler
settings of §6 (the settings types are not under `src/`). -/
structure ActiveSamplerSettings where
  probability : ℚ
  rate : ℚ
  burst : ℚ

/-- Modelled from the spec: the `sampling_strategy: Passive | Active{...}`
configuration surface of §6 (the settings types are not under `src/`). -/
inductive SamplingStrategy where
  | Passive : SamplingStrategy
  | Active : ActiveSamplerSettings → SamplingStrategy

/-- Modelled from the spec: backend-specific settings for the Jaeger
Thrift-over-UDP output (not under `src/`, opaque to the core). -/
structure JaegerThriftUdpOutputSettings where
  server_addr : String

/-- Modelled from the spec: backend-specific settings for the OpenTelemetry
gRPC output (not under `src/`, opaque to the core). -/
structure OpenTelemetryGrpcOutputSettings where
  endpoint_url : String

/-- Modelled from the spec: the `output: backend selector + backend-specific
settings` configuration surface of §6.  Both backends of `init.rs` are kept
(the `telemetry-otlp-grpc` feature is taken as enabled). -/
inductive TracesOutput where
  | JaegerThriftUdp : JaegerThriftUdpOutputSettings → TracesOutput
  | OpenTelemetryGrpc : OpenTelemetryGrpcOutputSettings → TracesOutput

/-- Modelled from the spec: the `TracingSettings` consumed by `init`
(§6: `enabled`, `sampling_strategy`, `output`). -/
structure TracingSettings where
  enabled : Bool
  sampling_strategy : SamplingStrategy
  output : TracesOutput

/-- Modelled from the spec: a span (§3) — identifiers, operation name, start
time, optional end time (absent while active), tags and the sampling
decision.  The `Span` type is not under `src/`. -/
structure Span where
  trace_id : Nat
  span_id : Nat
  parent_id : Option Nat
  operation_name : String
  start_time : Nat
  end_time : Option Nat
  tags : List (String × String)
  sampled : Bool

/-- Modelled from the spec: the rate-limiting probabilistic sampler state; only
its settings matter to the lifecycle code under verification (the sampler
implementation is not under `src/`). -/
structure RateLimitingProbabilisticSampler where
  settings : ActiveSamplerSettings

/-- Modelled from the spec: `RateLimitingProbabilisticSampler::default()` —
the all-zero configuration used by the no-op harness. -/
def RateLimitingProbabilisticSampler.default : RateLimitingProbabilisticSampler :=
  ⟨⟨0, 0, 0⟩⟩

/-- Modelled from the spec: the passive sampler (§4.3 alternative mode), a
unit value deferring every decision upstream; not under `src/`. -/
structure PassiveSampler where

/-- A boxed sampler, i.e. the dynamic `Sampler` trait object a `Tracer` is
built over: either the passive sampler or a rate-limiting probabilistic
sampler. -/
inductive BoxedSampler where
  | passive : BoxedSampler
  | rateLimiting : RateLimitingProbabilisticSampler → BoxedSampler

/-- Boxing of the passive sampler (`PassiveSampler.boxed()`). -/
def PassiveSampler.boxed (_s : PassiveSampler) : BoxedSampler :=
  BoxedSampler.passive

/-- Boxing of the rate-limiting sampler (`sampler.boxed()`). -/
def RateLimitingProbabilisticSampler.boxed
    (s : RateLimitingProbabilisticSampler) : BoxedSampler :=
  BoxedSampler.rateLimiting s

/-- Modelled from the spec: the bounded channel between a tracer and its
reporter (§4.4, §5; not under `src/`).  `receiver_alive` records whether the
receiving end still exists; `delivered` is the list of spans that actually
reached the receiver side, in delivery order. -/
structure SpanChannel where
  receiver_alive : Bool
  delivered : List Span

/-- Modelled from the spec: the receiving end of a tracer's span channel,
handed to the backend reporter starter; opaque to the core. -/
structure SpanReceiver where
  token : Unit

/-- Modelled from the spec: a tracer (§4.4; not under `src/`) — owns a sampler
and the sending side of its span channel. -/
structure Tracer where
  sampler : BoxedSampler
  chan : SpanChannel

/-- Modelled from the spec: `Tracer::new(sampler)` (§4.4) returns a tracer
bound to the sampler together with the receiving end of a fresh channel whose
receiver is initially alive. -/
def Tracer.new (sampler : BoxedSampler) : Tracer × SpanReceiver :=
  ({ sampler := sampler, chan := { receiver_alive := true, delivered := [] } },
   { token := () })

/-- Embedding of dropping the receiving end of a tracer's channel, as the
binding `let (noop_tracer, _) = Tracer::new(...)` in `NOOP_HARNESS` does: the
channel's receiver is gone, so nothing sent afterwards is ever delivered. -/
def Tracer.withReceiverDropped (t : Tracer) : Tracer :=
  { t with chan := { t.chan with receiver_alive := false } }

/-- Modelled from the spec: sending a finished span into the channel (§4.4,
§5).  With an alive receiver the span is delivered; with the receiver gone the
tracer still accepts the span without error and the channel discards it. -/
def SpanChannel.send (c : SpanChannel) (s : Span) : SpanChannel :=
  if c.receiver_alive then { c with delivered := c.delivered ++ [s] } else c

/-- Modelled from the spec: `finish(span)` (§4.4) stamps the end time and
sends the span to the channel when its sampling decision is "keep"; dropped
spans are discarded silently with no channel traffic. -/
def Tracer.finish (t : Tracer) (s : Span) (now : Nat) : Tracer :=
  let finished := { s with end_time := some now }
  if finished.sampled then { t with chan := t.chan.send finished } else t

/-- Modelled from the spec: the per-context scope stack (§4.1; not under
`src/`).  Each calling context (identified by a natural number) has its own
stack; no cross-context visibility. -/
structure ScopeStack (T : Type) where
  stackOf : Nat → List T

/-- The empty scope stack (`Default::default()`): every context's stack is
empty. -/
def ScopeStack.empty {T : Type} : ScopeStack T :=
  ⟨fun _ => []⟩

/-- Modelled from the spec: `current()` (§4.1) returns the top of the calling
context's stack, or nothing when that stack is empty; a pure read. -/
def ScopeStack.current {T : Type} (s : ScopeStack T) (ctx : Nat) : Option T :=
  (s.stackOf ctx).head?

/-- Modelled from the spec: the live-reference registry (§4.2; not under
`src/`), a set of currently registered live handles. -/
structure LiveReferenceSet (T : Type) where
  refs : List T

/-- The empty live-reference set (`Default::default()`). -/
def LiveReferenceSet.empty {T : Type} : LiveReferenceSet T :=
  ⟨[]⟩

/-- Modelled from the spec: `get_live_references` takes a point-in-time
snapshot (§4.2): it returns an owned copy of every currently registered handle
and leaves the set itself unchanged. -/
def LiveReferenceSet.get_live_references {T : Type} (s : LiveReferenceSet T) :
    List T × LiveReferenceSet T :=
  (s.refs, s)

/-- Modelled from the spec: one externally consumable trace event produced by
the snapshot serializer (§4.6); timestamps are relative to the harness start
and an open span is reported as ongoing (`dur = none`) rather than failing. -/
structure TraceEvent where
  name : String
  ts : Nat
  dur : Option Nat

/-- Modelled from the spec: `spans_to_trace_events` (§4.6; not under `src/`),
the pure serializer turning the harness start time and a snapshot of active
root spans into an event list. -/
def spans_to_trace_events (tracing_start : Nat) (spans : List Span) :
    List TraceEvent :=
  spans.map fun s =>
    { name := s.operation_name
      ts := s.start_time - tracing_start
      dur := s.end_time.map fun e => e - s.start_time }

/-- The tracing harness of `init.rs`: a tracer, the production span scope
stack, the test-mode tracer override stack (the `testing` feature is taken as
enabled), the active-roots live-reference set and the start timestamp. -/
structure TracingHarness where
  tracer : Tracer
  span_scope_stack : ScopeStack Span
  test_tracer_scope_stack : ScopeStack Tracer
  active_roots : LiveReferenceSet Span
  tracing_start : Nat

/-- The lazily created `NOOP_HARNESS` static: a harness over a default
rate-limiting sampler whose span receiver is dropped on the spot
(`let (noop_tracer, _) = ...`), with empty stacks and an empty live set.
The `Lazy` initialization time is the explicit `now` argument. -/
def NOOP_HARNESS (now : Nat) : TracingHarness :=
  let p := Tracer.new RateLimitingProbabilisticSampler.default.boxed
  { tracer := p.1.withReceiverDropped
    span_scope_stack := ScopeStack.empty
    test_tracer_scope_stack := ScopeStack.empty
    active_roots := LiveReferenceSet.empty
    tracing_start := now }

/-- The process-global mutable state: the `HARNESS: OnceCell<TracingHarness>`
static, embedded as an optional harness. -/
structure ProcState where
  harness : Option TracingHarness

/-- `OnceCell::set`: installs the value only when the cell is empty; a second
set leaves the previously installed value untouched (the result of the set is
discarded by `init` via `let _ = ...`). -/
def OnceCell.set {α : Type} (cell : Option α) (v : α) : Option α :=
  match cell with
  | none => some v
  | some old => some old

/-- `TracingHarness::get()`: the installed harness when one has been set, and
otherwise the lazy no-op fallback (`HARNESS.get().unwrap_or(&NOOP_HARNESS)`).
`noopNow` is the instant the lazy fallback would be created at. -/
def TracingHarness.get (noopNow : Nat) (st : ProcState) : TracingHarness :=
  st.harness.getD (NOOP_HARNESS noopNow)

/-- `TracingHarness::tracer()` in test mode: the top of the calling context's
test-tracer override stack when present, and the harness's own tracer
otherwise (`current().map(Cow::Owned).unwrap_or_else(...)`).  Named with a
prime because `tracer` is the field it falls back to. -/
def TracingHarness.tracer' (h : TracingHarness) (ctx : Nat) : Tracer :=
  match h.test_tracer_scope_stack.current ctx with
  | some t => t
  | none => h.tracer

/-- `TracingHarness::get_active_traces()`: serializes a snapshot of the
active-roots live set relative to the recorded start time.  The harness the
`&self` receiver could in principle mutate through interior mutability is
returned explicitly to make the read-only character provable. -/
def TracingHarness.get_active_traces (h : TracingHarness) :
    List TraceEvent × TracingHarness :=
  let snap := h.active_roots.get_live_references
  (spans_to_trace_events h.tracing_start snap.1,
   { h with active_roots := snap.2 })

/-- An opaque reporter task (the `BoxFuture` a backend starter returns);
identified by a tag only, since the core never inspects it. -/
structure ReporterTask where
  id : Nat

/-- Modelled from the spec: the fallible external collaborators of `init.rs`
that are not under `src/` — `RateLimitingProbabilisticSampler::new`,
`output_jaeger_thrift_udp::start` and `output_otlp_grpc::start`.  Theorems
quantify over all of their behaviours. -/
structure Collaborators where
  rlSamplerNew : ActiveSamplerSettings →
    Except BootstrapError RateLimitingProbabilisticSampler
  jaegerStart : ServiceInfo → JaegerThriftUdpOutputSettings → SpanReceiver →
    Except BootstrapError ReporterTask
  otlpStart : ServiceInfo → OpenTelemetryGrpcOutputSettings → SpanReceiver →
    Except BootstrapError ReporterTask

/-- `create_tracer_and_span_rx`: selects the sampler from the configured
sampling strategy — the passive sampler for `Passive`, the rate-limiting
probabilistic sampler built from the settings for `Active` (propagating its
construction error) — and builds a tracer over it. -/
def create_tracer_and_span_rx (ext : Collaborators)
    (settings : TracingSettings) :
    Except BootstrapError (Tracer × SpanReceiver) :=
  match settings.sampling_strategy with
  | SamplingStrategy.Passive =>
      Except.ok (Tracer.new PassiveSampler.mk.boxed)
  | SamplingStrategy.Active s =>
      match ext.rlSamplerNew s with
      | Except.error e => Except.error e
      | Except.ok sampler => Except.ok (Tracer.new sampler.boxed)

/-- `init`: when tracing is enabled, builds the tracer and span receiver,
starts the configured backend reporter (propagating either error before any
global write), constructs a fresh harness, installs it with a set-if-absent
on the once-cell (discarding the result) and returns the reporter future;
when tracing is disabled, does nothing and returns no future. -/
def init (ext : Collaborators) (now : Nat) (service_info : ServiceInfo)
    (settings : TracingSettings) (st : ProcState) :
    Except BootstrapError (Option ReporterTask) × ProcState :=
  if settings.enabled then
    match create_tracer_and_span_rx ext settings with
    | Except.error e => (Except.error e, st)
    | Except.ok (tracer, span_rx) =>
      match
        (match settings.output with
         | TracesOutput.JaegerThriftUdp os =>
             ext.jaegerStart service_info os span_rx
         | TracesOutput.OpenTelemetryGrpc os =>
             ext.otlpStart service_info os span_rx) with
      | Except.error e => (Except.error e, st)
      | Except.ok reporter_fut =>
        let harness : TracingHarness :=
          { tracer := tracer
            span_scope_stack := ScopeStack.empty
            test_tracer_scope_stack := ScopeStack.empty
            active_roots := LiveReferenceSet.empty
            tracing_start := now }
        (Except.ok (some reporter_fut),
         { st with harness := OnceCell.set st.harness harness })
  else
    (Except.ok none, st)

/-- One recorded call to `init`, for reasoning about arbitrary sequences of
initialization attempts. -/
structure InitCall where
  ext : Collaborators
  now : Nat
  service_info : ServiceInfo
  settings : TracingSettings

/-- Runs a sequence of `init` calls for their state effect. -/
def runInits (calls : List InitCall) (st : ProcState) : ProcState :=
  calls.foldl (fun s c => (init c.ext c.now c.service_info c.settings s).2) st

/-- Concrete collaborators whose constructors and starters all succeed. -/
def extOk : Collaborators :=
  { rlSamplerNew := fun s => Except.ok ⟨s⟩
    jaegerStart := fun _ _ _ => Except.ok ⟨0⟩
    otlpStart := fun _ _ _ => Except.ok ⟨1⟩ }

/-- Concrete collaborators whose sampler constructor always fails (invalid
sampler parameters). -/
def extSamplerFails : Collaborators :=
  { rlSamplerNew := fun _ => Except.error ⟨"invalid sampler settings"⟩
    jaegerStart := fun _ _ _ => Except.ok ⟨0⟩
    otlpStart := fun _ _ _ => Except.ok ⟨1⟩ }

/-- A concrete service identity. -/
def svcInfo : ServiceInfo :=
  ⟨"svc"⟩

/-- Enabled settings with the passive sampling strategy and the Jaeger
output. -/
def settingsEnabledPassive : TracingSettings :=
  { enabled := true
    sampling_strategy := SamplingStrategy.Passive
    output := TracesOutput.JaegerThriftUdp ⟨"127.0.0.1:6831"⟩ }

/-- Enabled settings with the active sampling strategy and the Jaeger
output. -/
def settingsEnabledActive : TracingSettings :=
  { enabled := true
    sampling_strategy := SamplingStrategy.Active ⟨1, 1, 1⟩
    output := TracesOutput.JaegerThriftUdp ⟨"127.0.0.1:6831"⟩ }

/-- Disabled settings carrying an active strategy, so that the (unreached)
sampler construction would be exercised were it ever consulted. -/
def settingsDisabled : TracingSettings :=
  { enabled := false
    sampling_strategy := SamplingStrategy.Active ⟨2, 0, 0⟩
    output := TracesOutput.JaegerThriftUdp ⟨"127.0.0.1:6831"⟩ }

/-- The process state after one successful enabled `init` from a fresh
process. -/
def st1 : ProcState :=
  (init extOk 0 svcInfo settingsEnabledPassive { harness := none }).2

/-- The tracer a passive-strategy `init` builds. -/
def tracerPassive : Tracer :=
  (Tracer.new PassiveSampler.mk.boxed).1

/-- The harness installed by that first successful `init`. -/
def harness0 : TracingHarness :=
  { tracer := tracerPassive
    span_scope_stack := ScopeStack.empty
    test_tracer_scope_stack := ScopeStack.empty
    active_roots := LiveReferenceSet.empty
    tracing_start := 0 }

/-- A concrete later sequence of `init` calls: one enabled call that would
succeed and one whose sampler construction fails. -/
def demoCalls : List InitCall :=
  [⟨extOk, 7, svcInfo, settingsEnabledPassive⟩,
   ⟨extSamplerFails, 8, svcInfo, settingsEnabledActive⟩]

/-- A harness whose context 3 carries a test-tracer override. -/
def harnessWithOverride : TracingHarness :=
  { harness0 with
      test_tracer_scope_stack := ⟨fun c => if c = 3 then [tracerPassive] else []⟩ }

/-- Helper: whenever `init` returns an error, it leaves the process state
untouched (both `?` propagation points sit before the once-cell write). -/
theorem init_error_keeps_state (ext : Collaborators) (now : Nat)
    (si : ServiceInfo) (settings : TracingSettings) (st : ProcState)
    (e : BootstrapError)
    (he : (init ext now si settings st).1 = Except.error e) :
    (init ext now si settings st).2 = st := by
  cases hen : settings.enabled
  · simp [init, hen] at he
  · rcases hc : create_tracer_and_span_rx ext settings with e' | ⟨t, rx⟩
    · simp [init, hen, hc]
    · cases ho : settings.output with
      | JaegerThriftUdp os =>
        rcases hj : ext.jaegerStart si os rx with e' | r
        · simp [init, hen, hc, ho, hj]
        · simp [init, hen, hc, ho, hj] at he
      | OpenTelemetryGrpc os =>
        rcases hg : ext.otlpStart si os rx with e' | r
        · simp [init, hen, hc, ho, hg]
        · simp [init, hen, hc, ho, hg] at he

/-- Helper: `init` never replaces an already-installed harness, on any path. -/
theorem init_preserves_installed (ext : Collaborators) (now : Nat)
    (si : ServiceInfo) (settings : TracingSettings) (st : ProcState)
    (h : TracingHarness) (hh : st.harness = some h) :
    (init ext now si settings st).2.harness = some h := by
  cases hen : settings.enabled
  · simp [init, hen, hh]
  · rcases hc : create_tracer_and_span_rx ext settings with e' | ⟨t, rx⟩
    · simp [init, hen, hc, hh]
    · cases ho : settings.output with
      | JaegerThriftUdp os =>
        rcases hj : ext.jaegerStart si os rx with e' | r <;>
          simp [init, hen, hc, ho, hj, hh, OnceCell.set]
      | OpenTelemetryGrpc os =>
        rcases hg : ext.otlpStart si os rx with e' | r <;>
          simp [init, hen, hc, ho, hg, hh, OnceCell.set]

/-- Helper: unrolling one call of a sequence of `init` calls. -/
theorem runInits_cons (c : InitCall) (rest : List InitCall) (st : ProcState) :
    runInits (c :: rest) st =
      runInits rest (init c.ext c.now c.service_info c.settings st).2 :=
  rfl

/-- Helper: finishing any span through a tracer whose channel receiver is gone
leaves the tracer unchanged — the span is silently discarded. -/
theorem finish_with_dead_receiver_is_noop (t : Tracer) (s : Span) (now : Nat)
    (h1 : t.chan.receiver_alive = false) :
    t.finish s now = t := by
  have hsend : ∀ sp, t.chan.send sp = t.chan := by
    intro sp
    unfold SpanChannel.send
    rw [h1]
    simp
  simp only [Tracer.finish]
  rw [hsend]
  split <;> rfl

/-- C4: `TracingHarness::get()` never returns an absence — its return type is
a harness, and in every process state it is the installed harness when one has
been set and the lazily created no-op fallback otherwise. -/
theorem get_never_absent (now : Nat) (st : ProcState) :
    TracingHarness.get now st =
      (match st.harness with
       | some h => h
       | none => NOOP_HARNESS now) := by
  cases hst : st.harness <;> simp [TracingHarness.get, hst]

/-- C10: when tracing is disabled, `init` returns `Ok(None)` and leaves the
state untouched for every sampling strategy, output configuration and every
behaviour of the external collaborators — in particular it never errors, even
when the sampler constructor would reject the settings. -/
theorem init_disabled_never_errors (ext : Collaborators) (now : Nat)
    (si : ServiceInfo) (settings : TracingSettings) (st : ProcState)
    (hdis : settings.enabled = false) :
    init ext now si settings st = (Except.ok none, st) := by
  simp [init, hdis]

/-- Witness for C10: disabled settings carrying invalid sampler parameters and
an always-failing sampler constructor still give `Ok(None)` with the state
untouched. -/
theorem init_disabled_never_errors_witness :
    init extSamplerFails 0 svcInfo settingsDisabled { harness := none } =
      (Except.ok none, { harness := none }) :=
  init_disabled_never_errors extSamplerFails 0 svcInfo settingsDisabled
    { harness := none } rfl

/-- C3: with tracing disabled, `init` returns no reporter task and performs no
work — the state is untouched, so from a fresh process the harness remains the
no-op fallback and a subsequent `get_active_traces()` returns an empty
snapshot. -/
theorem init_disabled_is_noop (ext : Collaborators) (now : Nat)
    (si : ServiceInfo) (settings : TracingSettings) (st : ProcState)
    (hdis : settings.enabled = false) (h0 : st.harness = none) :
    (init ext now si settings st).1 = Except.ok none ∧
    (init ext now si settings st).2 = st ∧
    ∀ t, ((TracingHarness.get t (init ext now si settings st).2).get_active_traces).1
      = [] := by
  have h1 : init ext now si settings st = (Except.ok none, st) := by
    simp [init, hdis]
  refine ⟨by rw [h1], by rw [h1], fun t => ?_⟩
  rw [h1]
  simp [TracingHarness.get, h0, NOOP_HARNESS, TracingHarness.get_active_traces,
    LiveReferenceSet.get_live_references, LiveReferenceSet.empty,
    spans_to_trace_events]

/-- Witness for C3: a concrete disabled `init` from a fresh process returns no
task, keeps the state, and the subsequent snapshot is empty. -/
theorem init_disabled_is_noop_witness :
    (init extSamplerFails 0 svcInfo settingsDisabled { harness := none }).1
      = Except.ok none ∧
    (init extSamplerFails 0 svcInfo settingsDisabled { harness := none }).2
      = { harness := none } ∧
    ∀ t, ((TracingHarness.get t
      (init extSamplerFails 0 svcInfo settingsDisabled { harness := none }).2).get_active_traces).1
      = [] :=
  init_disabled_is_noop extSamplerFails 0 svcInfo settingsDisabled
    { harness := none } rfl rfl

/-- C2: whenever `init` returns an error (sampler construction or backend
start failure), nothing is installed: from a fresh process the harness stays
absent and `TracingHarness::get()` still returns the no-op fallback —
initialization is atomic. -/
theorem init_error_leaves_noop (ext : Collaborators) (now : Nat)
    (si : ServiceInfo) (settings : TracingSettings) (st : ProcState)
    (e : BootstrapError) (h0 : st.harness = none)
    (he : (init ext now si settings st).1 = Except.error e) :
    (init ext now si settings st).2.harness = none ∧
    ∀ t, TracingHarness.get t (init ext now si settings st).2
      = NOOP_HARNESS t := by
  have hs : (init ext now si settings st).2 = st :=
    init_error_keeps_state ext now si settings st e he
  rw [hs]
  exact ⟨h0, fun t => by simp [TracingHarness.get, h0]⟩

/-- Witness for C2: an enabled `init` whose sampler constructor rejects the
active settings errors out and leaves the fresh process on the no-op
fallback. -/
theorem init_error_leaves_noop_witness :
    (init extSamplerFails 0 svcInfo settingsEnabledActive { harness := none }).2.harness
      = none ∧
    ∀ t, TracingHarness.get t
      (init extSamplerFails 0 svcInfo settingsEnabledActive { harness := none }).2
      = NOOP_HARNESS t :=
  init_error_leaves_noop extSamplerFails 0 svcInfo settingsEnabledActive
    { harness := none } ⟨"invalid sampler settings"⟩ rfl rfl

/-- C5: the lifecycle is one-way — once a harness is installed, any later
sequence of `init` calls (succeeding or failing, enabled or not) leaves that
same instance installed, and every later `TracingHarness::get()` returns it. -/
theorem harness_install_permanent (calls : List InitCall) (st : ProcState)
    (h : TracingHarness) (hh : st.harness = some h) :
    (runInits calls st).harness = some h ∧
    ∀ t, TracingHarness.get t (runInits calls st) = h := by
  have key : ∀ (cs : List InitCall) (s : ProcState), s.harness = some h →
      (runInits cs s).harness = some h := by
    intro cs
    induction cs with
    | nil =>
      intro s hs
      simpa [runInits] using hs
    | cons c rest ih =>
      intro s hs
      rw [runInits_cons]
      exact ih _ (init_preserves_installed c.ext c.now c.service_info
        c.settings s h hs)
  refine ⟨key calls st hh, fun t => ?_⟩
  simp [TracingHarness.get, key calls st hh]

/-- Witness for C5: after one successful enabled `init`, a later succeeding
call and a later failing call both leave the first harness installed. -/
theorem harness_install_permanent_witness :
    (runInits demoCalls st1).harness = some harness0 ∧
    ∀ t, TracingHarness.get t (runInits demoCalls st1) = harness0 :=
  harness_install_permanent demoCalls st1 harness0 rfl

/-- C6: `create_tracer_and_span_rx` selects the sampler from the configured
strategy — for `Passive` it always succeeds with a tracer over the passive
sampler; for `Active` it succeeds with a tracer over the rate-limiting
probabilistic sampler built from the settings, and errors exactly when that
construction errors. -/
theorem create_tracer_sampler_selection (ext : Collaborators)
    (settings : TracingSettings) :
    (settings.sampling_strategy = SamplingStrategy.Passive →
      create_tracer_and_span_rx ext settings =
        Except.ok (Tracer.new PassiveSampler.mk.boxed)) ∧
    (∀ s, settings.sampling_strategy = SamplingStrategy.Active s →
      (∀ sampler, ext.rlSamplerNew s = Except.ok sampler →
        create_tracer_and_span_rx ext settings =
          Except.ok (Tracer.new sampler.boxed)) ∧
      (∀ e, create_tracer_and_span_rx ext settings = Except.error e ↔
        ext.rlSamplerNew s = Except.error e)) := by
  constructor
  · intro hp
    simp [create_tracer_and_span_rx, hp]
  · intro s hs
    constructor
    · intro sampler hrl
      simp [create_tracer_and_span_rx, hs, hrl]
    · intro e
      constructor
      · intro hce
        rcases hrl : ext.rlSamplerNew s with e' | sampler
        · simp [create_tracer_and_span_rx, hs, hrl] at hce
          simp [hce]
        · simp [create_tracer_and_span_rx, hs, hrl] at hce
      · intro hrl
        simp [create_tracer_and_span_rx, hs, hrl]

/-- Witness for C6: the passive strategy yields the passive-sampler tracer,
and an always-failing sampler constructor makes the active strategy fail with
that very error. -/
theorem create_tracer_sampler_selection_witness :
    create_tracer_and_span_rx extOk settingsEnabledPassive =
      Except.ok (Tracer.new PassiveSampler.mk.boxed) ∧
    create_tracer_and_span_rx extSamplerFails settingsEnabledActive =
      Except.error ⟨"invalid sampler settings"⟩ :=
  ⟨(create_tracer_sampler_selection extOk settingsEnabledPassive).1 rfl,
   (((create_tracer_sampler_selection extSamplerFails settingsEnabledActive).2
      ⟨1, 1, 1⟩ rfl).2 ⟨"invalid sampler settings"⟩).mpr rfl⟩

/-- C7: in test mode, `TracingHarness::tracer()` consults the per-context
stacks in fixed priority order — the top of the calling context's test-tracer
override stack when that stack is non-empty, the harness's own production
tracer otherwise. -/
theorem tracer_override_priority (h : TracingHarness) (ctx : Nat) :
    (∀ t rest, h.test_tracer_scope_stack.stackOf ctx = t :: rest →
      h.tracer' ctx = t) ∧
    (h.test_tracer_scope_stack.stackOf ctx = [] → h.tracer' ctx = h.tracer) := by
  constructor
  · intro t rest hs
    simp [TracingHarness.tracer', ScopeStack.current, hs]
  · intro hs
    simp [TracingHarness.tracer', ScopeStack.current, hs]

/-- Witness for C7: a harness whose context 3 carries an override returns the
override in context 3 and its own tracer in context 0. -/
theorem tracer_override_priority_witness :
    harnessWithOverride.tracer' 3 = tracerPassive ∧
    harnessWithOverride.tracer' 0 = harnessWithOverride.tracer :=
  ⟨(tracer_override_priority harnessWithOverride 3).1 tracerPassive [] rfl,
   (tracer_override_priority harnessWithOverride 0).2 rfl⟩

/-- C8: `get_active_traces()` is exactly the serialization of a point-in-time
snapshot of the active-roots live set, with the harness's recorded start time
as the reference origin, and it leaves the harness (live set included)
unchanged. -/
theorem get_active_traces_is_pure_snapshot (h : TracingHarness) :
    (h.get_active_traces).1 =
      spans_to_trace_events h.tracing_start
        (h.active_roots.get_live_references).1 ∧
    (h.get_active_traces).2 = h :=
  ⟨rfl, rfl⟩

/-- C9: every span finished through the no-op fallback harness's tracer is
discarded: its channel receiver was dropped at construction, so after any
sequence of finishes nothing has ever been delivered to a reporter. -/
theorem noop_harness_spans_never_delivered (nnow : Nat)
    (spans : List (Span × Nat)) :
    ((spans.foldl (fun t p => t.finish p.1 p.2)
      (NOOP_HARNESS nnow).tracer).chan).delivered = [] := by
  have hstep : ∀ (l : List (Span × Nat)) (t : Tracer),
      t.chan.receiver_alive = false → t.chan.delivered = [] →
      ((l.foldl (fun t p => t.finish p.1 p.2) t).chan).delivered = [] := by
    intro l
    induction l with
    | nil =>
      intro t _ h2
      simpa using h2
    | cons p rest ih =>
      intro t h1 h2
      rw [List.foldl_cons, finish_with_dead_receiver_is_noop t p.1 p.2 h1]
      exact ih t h1 h2
  exact hstep spans _ rfl rfl

/-- C1 evidence: after a first successful enabled `init`, a second enabled
`init` does leave the installed harness unchanged, but — contrary to the claim
and to the code's own NOTE comment — it returns a second reporter task
(`Ok(Some(..))`, not `Ok(None)`), having re-run sampler construction and
backend startup. -/
theorem init_second_call_returns_second_reporter :
    st1.harness = some harness0 ∧
    (init extOk 5 svcInfo settingsEnabledPassive st1).2.harness = st1.harness ∧
    (init extOk 5 svcInfo settingsEnabledPassive st1).1 =
      Except.ok (some ⟨0⟩) ∧
    (init extOk 5 svcInfo settingsEnabledPassive st1).1 ≠ Except.ok none := by
  refine ⟨rfl, rfl, rfl, ?_⟩
  intro hx
  have hx' : (some (⟨0⟩ : ReporterTask)) = (none : Option ReporterTask) :=
    Except.ok.inj hx
  exact Option.noConfusion hx'
